import Mathlib

set_option maxRecDepth 100000

/-
Verification of the EduInsight learner-classification core (src/app.py).

The embedding models:
  * `to_float_safe` (app.py lines 51-60): comma normalization + Python
    `float()` parsing with a default on failure;
  * the feature-vector construction and `predict_learner_type`
    (app.py lines 103-110): optional scaler, opaque classifier,
    label lookup with stringified fallback;
  * `build_reason_sentence` (app.py lines 113-161): the narrative
    generator.  Note that the source function returns unconditionally at
    lines 122-161; the further template code at lines 163-261 of app.py
    sits after a `return` on every path and is unreachable, so it is not
    part of the embedded semantics.

Numbers are modelled as rationals.  The model of Python's `float()`
covers finite decimal literals (sign, digits, one dot, exponent,
surrounding whitespace); special spellings (inf/nan, underscore digit
separators) are treated as parse failures — they do not occur in any
property considered here.
-/

/-- The 7 feature columns (app.py FEATURE_COLS), as an enumerated type. -/
inductive FieldName where
  | avg_study_duration
  | avg_submission_rating
  | avg_exam_score
  | total_submissions
  | total_tracking_events
  | total_completed_modules
  | days_since_last_active
deriving DecidableEq

/-- FEATURE_COLS (app.py lines 20-28): the canonical column order used by
the classifier and scaler. -/
def FEATURE_COLS : List FieldName :=
  [.avg_study_duration, .avg_submission_rating, .avg_exam_score,
   .total_submissions, .total_tracking_events, .total_completed_modules,
   .days_since_last_active]

/-- A raw input value for one field: a number, a string, or a missing/NA
value (`pd.isna` true). -/
inductive RawValue where
  | num (q : ℚ)
  | str (s : String)
  | nan

/-- A raw field map: per field, possibly a raw value (none = key absent). -/
abbrev RawMap : Type := FieldName → Option RawValue

/-- A fully built feature dictionary (all 7 keys present, float values). -/
abbrev FeatureMap : Type := FieldName → ℚ

/-- The dictionary handed to `build_reason_sentence` (keys may be absent;
the source uses `.get(key, 0.0)`). -/
abbrev UserData : Type := FieldName → Option ℚ

/- ===== model of Python float() parsing ===== -/

/-- Whitespace stripped by Python's `float()`. -/
def isWS (c : Char) : Bool :=
  c = ' ' || c = '\t' || c = '\n' || c = '\r' || c = '\x0b' || c = '\x0c'

/-- Strip leading and trailing whitespace. -/
def trimWS (l : List Char) : List Char :=
  ((l.dropWhile isWS).reverse.dropWhile isWS).reverse

/-- Split an optional leading sign; `true` means negative. -/
def splitSign : List Char → Bool × List Char
  | '-' :: r => (true, r)
  | '+' :: r => (false, r)
  | l => (false, l)

/-- Take the longest run of leading decimal digits. -/
def takeDigits : List Char → List Char × List Char
  | [] => ([], [])
  | c :: cs =>
    if c.isDigit then
      let p := takeDigits cs
      (c :: p.1, p.2)
    else ([], c :: cs)

/-- Value of a digit run. -/
def digitsToNat (l : List Char) : ℕ :=
  l.foldl (fun a c => 10 * a + (c.toNat - 48)) 0

/-- Parse an unsigned mantissa `digits [. digits]` (at least one digit
overall); returns the value and the unconsumed rest. -/
def parseMantissa (l : List Char) : Option (ℚ × List Char) :=
  let p := takeDigits l
  match p.2 with
  | '.' :: r2 =>
    let q := takeDigits r2
    if p.1.isEmpty && q.1.isEmpty then none
    else some ((digitsToNat p.1 : ℚ) + (digitsToNat q.1 : ℚ) / 10 ^ q.1.length, q.2)
  | _ => if p.1.isEmpty then none else some ((digitsToNat p.1 : ℚ), p.2)

/-- Parse the tail after the mantissa: either nothing, or a full exponent
part `(e|E) [sign] digits` consuming the whole rest.  Returns the scale
factor. -/
def parseExpPart (l : List Char) : Option ℚ :=
  match l with
  | [] => some 1
  | 'e' :: r | 'E' :: r =>
    let sp := splitSign r
    let d := takeDigits sp.2
    if d.1.isEmpty || !d.2.isEmpty then none
    else some (if sp.1 then 1 / 10 ^ digitsToNat d.1 else (10 : ℚ) ^ digitsToNat d.1)
  | _ => none

/-- Model of Python's `float(s)` on a character list: `none` means the
call raises `ValueError`. -/
def python_float (l : List Char) : Option ℚ :=
  match parseMantissa (splitSign (trimWS l)).2 with
  | none => none
  | some (v, rest) =>
    match parseExpPart rest with
    | none => none
    | some m => some ((if (splitSign (trimWS l)).1 then -v else v) * m)

/-- `x.replace(",", ".")` for a single-character pattern is a character
map. -/
def replaceCommaWithDot (l : List Char) : List Char :=
  l.map (fun c => if c = ',' then '.' else c)

/-- to_float_safe (app.py lines 51-60): NA maps to the default, strings
have commas replaced by dots, then `float(x)`; any failure yields the
default. -/
def to_float_safe (x : RawValue) (default : ℚ := 0) : ℚ :=
  match x with
  | .nan => default
  | .num q => q
  | .str s =>
    match python_float (replaceCommaWithDot s.data) with
    | some q => q
    | none => default

/-- Modelled from the spec: the Feature Vector Builder (spec section 4.1)
— the source repository feeds `predict_learner_type` from UI widgets and
applies `to_float_safe` per cell on the dashboard page, but no function
under src/ composes a raw field map into the feature dictionary; the spec
prescribes per-field defaulting via the safe conversion, so the builder
is `to_float_safe` applied field-wise with default 0.0 (absent key =
missing value). -/
def build_feature_vector (raw : RawMap) : FeatureMap :=
  fun f =>
    match raw f with
    | none => 0
    | some v => to_float_safe v 0

/- ===== prediction service ===== -/

/-- The optional pre-fit scaler artifact: one operation, `transform`. -/
structure ScalerArtifact where
  transform : List ℚ → List ℚ

/-- The opaque classifier artifact: `predict` on a single-row batch,
modelled as the first element of the returned batch. -/
structure ClassifierArtifact where
  predict : List ℚ → ℤ

/-- LABEL_DISPLAY (app.py lines 41-45). -/
def LABEL_DISPLAY (code : ℤ) : Option String :=
  if code = 0 then some "Consistent Learner"
  else if code = 1 then some "Fast Learner"
  else if code = 2 then some "Reflective Learner"
  else none

/-- `LABEL_DISPLAY.get(pred, str(pred))` (app.py line 110). -/
def labelFor (code : ℤ) : String :=
  (LABEL_DISPLAY code).getD (toString code)

/-- Apply the scaler when present, else pass the vector unchanged
(app.py lines 106-107). -/
def scaledInput (scaler : Option ScalerArtifact) (x : List ℚ) : List ℚ :=
  match scaler with
  | some s => s.transform x
  | none => x

/-- predict_learner_type (app.py lines 103-110): build the row in
FEATURE_COLS order, scale if a scaler is present, predict, map the code
through LABEL_DISPLAY with stringified fallback. -/
def predict_learner_type (model : ClassifierArtifact)
    (scaler : Option ScalerArtifact) (feature_dict : FeatureMap) : String :=
  labelFor (model.predict (scaledInput scaler (FEATURE_COLS.map feature_dict)))

/-- Modelled from the spec: the raw-map level `predict` operation (spec
section 6) is the Feature Vector Builder composed with the prediction
service. -/
def predict_pipeline (model : ClassifierArtifact)
    (scaler : Option ScalerArtifact) (raw : RawMap) : String :=
  predict_learner_type model scaler (build_feature_vector raw)

/- ===== narrative generator ===== -/

/-- `user_data.get(field, 0.0)`. -/
def gv (u : UserData) (f : FieldName) : ℚ := (u f).getD 0

/-- Python `int()` on a float: truncation toward zero. -/
def int_trunc (q : ℚ) : ℤ := if 0 ≤ q then ⌊q⌋ else ⌈q⌉

/-- Left-pad a numeral with zeros to width `p`. -/
def padZeros (p : ℕ) (s : String) : String :=
  String.mk (List.replicate (p - s.length) '0') ++ s

/-- Python fixed-point formatting `f"{q:.pf}"` on the rational model:
round `q * 10^p` to the nearest integer and print with `p` fractional
digits.  (Exact decimal ties round half-up here; Python's behaviour on
ties depends on the binary representation and no property below involves
a tie.) -/
def formatFixed (p : ℕ) (q : ℚ) : String :=
  let n : ℤ := round (q * (10 : ℚ) ^ p)
  let sgn := if n < 0 then "-" else ""
  let m : ℕ := n.natAbs
  let ip : ℕ := m / 10 ^ p
  let fp : ℕ := m % 10 ^ p
  if p = 0 then sgn ++ toString ip
  else sgn ++ toString ip ++ "." ++ padZeros p (toString fp)

/-- `f"{q:.1f}"`. -/
def fmt1 (q : ℚ) : String := formatFixed 1 q

/-- The Fast Learner template (app.py lines 122-132), with Python's
compile-time concatenation of adjacent literals applied. -/
def fastText (u : UserData) : String :=
  "Kamu dikategorikan sebagai **Fast Learner** karena mampu menyelesaikan banyak materi dalam waktu relatif singkat (**"
  ++ toString (int_trunc (gv u .total_completed_modules))
  ++ "** sub-modul selesai). Durasi belajar rata-rata sekitar **"
  ++ fmt1 (gv u .avg_study_duration)
  ++ " menit** per sesi dengan tingkat aktivitas yang cukup tinggi (**"
  ++ toString (int_trunc (gv u .total_tracking_events))
  ++ "** interaksi).\n\nDari sisi akademik, nilai ujian rata-rata **"
  ++ fmt1 (gv u .avg_exam_score)
  ++ "** menunjukkan bahwa kecepatan belajar tidak mengurangi pemahaman materi.\n\n**Saran:** Pertahankan efisiensi belajarmu, namun tetap luangkan waktu untuk mereview materi agar pemahaman tetap konsisten dalam jangka panjang."

/-- The Consistent Learner template (app.py lines 134-144). -/
def consistentText (u : UserData) : String :=
  "Kamu termasuk **Consistent Learner** karena menunjukkan pola belajar yang stabil dan teratur. Kamu aktif mengakses materi (**"
  ++ toString (int_trunc (gv u .total_tracking_events))
  ++ "** aktivitas) dan menyelesaikan **"
  ++ toString (int_trunc (gv u .total_completed_modules))
  ++ "** sub-modul secara bertahap.\n\nNilai submission rata-rata **"
  ++ fmt1 (gv u .avg_submission_rating)
  ++ "** dan nilai ujian **"
  ++ fmt1 (gv u .avg_exam_score)
  ++ "** mencerminkan performa akademik yang stabil. Kamu juga relatif konsisten dalam aktivitas belajar dengan jeda terakhir aktif sekitar **"
  ++ toString (int_trunc (gv u .days_since_last_active))
  ++ " hari**.\n\n**Saran:** Pertahankan konsistensi ini karena sudah membentuk dasar pemahaman yang kuat."

/-- The Reflective Learner template (app.py lines 146-156). -/
def reflectiveText (u : UserData) : String :=
  "Kamu dikategorikan sebagai **Reflective Learner** karena cenderung belajar dengan ritme lebih lambat dan selektif. Jumlah materi yang diselesaikan masih terbatas (**"
  ++ toString (int_trunc (gv u .total_completed_modules))
  ++ "** sub-modul), namun kamu menghabiskan waktu belajar sekitar **"
  ++ fmt1 (gv u .avg_study_duration)
  ++ " menit** per sesi.\n\nAktivitas belajar (**"
  ++ toString (int_trunc (gv u .total_tracking_events))
  ++ "** interaksi) dan nilai ujian (**"
  ++ fmt1 (gv u .avg_exam_score)
  ++ "**) menunjukkan bahwa kamu masih berada pada tahap eksplorasi.\n\n**Saran:** Cobalah meningkatkan konsistensi belajar dengan menyelesaikan lebih banyak materi secara bertahap agar pemahaman yang kamu bangun dapat tercermin pada hasil evaluasi."

/-- build_reason_sentence (app.py lines 113-161): the reachable part of
the source function — sequential label tests with a generic fallback.
(The code at app.py lines 163-261 follows the final `return` of every
path and never executes.) -/
def build_reason_sentence (learner_type : String) (user_data : UserData) : String :=
  if learner_type = "Fast Learner" then fastText user_data
  else if learner_type = "Consistent Learner" then consistentText user_data
  else if learner_type = "Reflective Learner" then reflectiveText user_data
  else
    "Kamu mendapatkan kategori **" ++ learner_type
    ++ "** berdasarkan kombinasi pola aktivitas belajar dan performa akademik."

/- ===== auxiliary definitions used by the properties ===== -/

/-- `p` is a prefix of `l`. -/
def isPrefOf : List Char → List Char → Bool
  | [], _ => true
  | _ :: _, [] => false
  | a :: as, b :: bs => a == b && isPrefOf as bs

/-- `p` occurs as a contiguous run inside `l`. -/
def containsSub (p : List Char) : List Char → Bool
  | [] => p.isEmpty
  | l@(_ :: t) => isPrefOf p l || containsSub p t

/-- Substring test on strings (Python's `pat in s`). -/
def strContains (s pat : String) : Bool := containsSub pat.data s.data

/-- Replace one field of a user-data dictionary. -/
def updateField (u : UserData) (f : FieldName) (q : ℚ) : UserData :=
  fun g => if g = f then some q else u g

/-- The four count fields that app.py lines 117-120 pass through `int()`. -/
def isCountField : FieldName → Bool
  | .total_submissions => true
  | .total_tracking_events => true
  | .total_completed_modules => true
  | .days_since_last_active => true
  | _ => false

/-- Round a rational to one decimal place. -/
def dec1 (q : ℚ) : ℚ := ((round (q * 10) : ℤ) : ℚ) / 10

/-- Truncate the count fields toward zero and round the average fields to
the narrative's fixed one-decimal precision. -/
def normalizeUserData (u : UserData) : UserData :=
  fun f => (u f).map fun q =>
    if isCountField f then ((int_trunc q : ℤ) : ℚ) else dec1 q

/-- The invalid raw inputs of the defaulting property: a missing key, an
NA value, or a string that `float()` rejects after comma normalization
(this includes the empty string and non-numeric text). -/
def invalidRaw : Option RawValue → Prop
  | none => True
  | some .nan => True
  | some (.num _) => False
  | some (.str s) => python_float (replaceCommaWithDot s.data) = none

/-- Feature dictionary with `avg_submission_rating = 1.5` and
`avg_exam_score = 60.0` (the cautionary-branch example of the spec). -/
def u_c1_caution : UserData := fun f =>
  some (match f with
    | .avg_submission_rating => 1.5
    | .avg_exam_score => 60
    | _ => 0)

/-- Feature dictionary with `avg_submission_rating = 4.5` and
`avg_exam_score = 90.0` (the affirming-branch example of the spec). -/
def u_c1_affirm : UserData := fun f =>
  some (match f with
    | .avg_submission_rating => 4.5
    | .avg_exam_score => 90
    | _ => 0)

/-- Feature dictionary with `avg_exam_score = 90.0`,
`avg_submission_rating = 4.5` (the mentor-branch example of the spec). -/
def u_c2_mentor : UserData := fun f =>
  some (match f with
    | .avg_exam_score => 90
    | .avg_submission_rating => 4.5
    | _ => 0)

/-- Feature dictionary with `avg_exam_score = 80.0`,
`avg_submission_rating = 4.5` (the maintain-pace example of the spec). -/
def u_c2_maintain : UserData := fun f =>
  some (match f with
    | .avg_exam_score => 80
    | .avg_submission_rating => 4.5
    | _ => 0)

/-- The end-to-end scenario feature vector of spec section 8. -/
def fv_c3 : FeatureMap := fun f =>
  match f with
  | .avg_study_duration => 45
  | .avg_submission_rating => 4.2
  | .avg_exam_score => 88
  | .total_submissions => 10
  | .total_tracking_events => 120
  | .total_completed_modules => 15
  | .days_since_last_active => 2

/-- The same scenario vector as a narrative dictionary. -/
def u_c3 : UserData := fun f => some (fv_c3 f)

/-- A raw field map with one missing, one non-numeric and one empty
field. -/
def raw_c4 : RawMap := fun f =>
  match f with
  | .avg_study_duration => none
  | .avg_submission_rating => some (.str "")
  | .avg_exam_score => some (.str "abc")
  | _ => some (.num 5)

/-- Feature dictionary whose completed-module count has a fractional
part. -/
def u_c9 : UserData := fun f =>
  some (match f with
    | .total_completed_modules => 15.9
    | _ => 0)

/- ===== helper lemmas: substring tests ===== -/

theorem strData_append (s t : String) : (s ++ t).data = s.data ++ t.data := rfl

theorem isPrefOf_self_append (p y : List Char) : isPrefOf p (p ++ y) = true := by
  induction p with
  | nil => rfl
  | cons a as ih => simp [isPrefOf, ih]

theorem containsSub_nil_pat (l : List Char) : containsSub [] l = true := by
  cases l with
  | nil => rfl
  | cons a t => simp [containsSub, isPrefOf]

theorem containsSub_append_right (x l p : List Char)
    (h : containsSub p l = true) : containsSub p (x ++ l) = true := by
  induction x with
  | nil => exact h
  | cons a t ih => simp [containsSub, ih]

theorem isPrefOf_mono (p : List Char) :
    ∀ l y, isPrefOf p l = true → isPrefOf p (l ++ y) = true := by
  induction p with
  | nil => intro l y _; rfl
  | cons a as ih =>
    intro l y h
    cases l with
    | nil => simp [isPrefOf] at h
    | cons b bs =>
      simp only [isPrefOf, Bool.and_eq_true, beq_iff_eq] at h
      simp only [List.cons_append, isPrefOf, Bool.and_eq_true, beq_iff_eq]
      exact ⟨h.1, ih bs y h.2⟩

theorem containsSub_append_left (p : List Char) :
    ∀ l y, containsSub p l = true → containsSub p (l ++ y) = true := by
  intro l
  induction l with
  | nil =>
    intro y h
    have hp : p = [] := by
      simpa [containsSub, List.isEmpty_iff] using h
    subst hp
    exact containsSub_nil_pat y
  | cons a t ih =>
    intro y h
    simp only [containsSub, Bool.or_eq_true] at h
    rcases h with h | h
    · have := isPrefOf_mono p (a :: t) y h
      simp only [List.cons_append] at this ⊢
      simp [containsSub, this]
    · simp [containsSub, ih y h]

theorem strContains_append_right (x y p : String)
    (h : strContains y p = true) : strContains (x ++ y) p = true := by
  unfold strContains at h ⊢
  rw [strData_append]
  exact containsSub_append_right _ _ _ h

theorem strContains_append_left (x y p : String)
    (h : strContains x p = true) : strContains (x ++ y) p = true := by
  unfold strContains at h ⊢
  rw [strData_append]
  exact containsSub_append_left _ _ _ h

/- ===== helper lemmas: dot counting in the float parser ===== -/

theorem count_dropWhile_of_ne (pr : Char → Bool) (a : Char) (ha : pr a = false) :
    ∀ l : List Char, (l.dropWhile pr).count a = l.count a := by
  intro l
  induction l with
  | nil => rfl
  | cons c cs ih =>
    by_cases hc : pr c
    · have hca : c ≠ a := fun e => by rw [e, ha] at hc; exact Bool.false_ne_true hc
      simp [List.dropWhile_cons, hc, ih, List.count_cons_of_ne (fun e => hca e.symm)]
    · simp [List.dropWhile_cons, hc]

theorem count_trimWS (a : Char) (ha : isWS a = false) (l : List Char) :
    (trimWS l).count a = l.count a := by
  unfold trimWS
  rw [List.count_reverse, count_dropWhile_of_ne _ _ ha, List.count_reverse,
    count_dropWhile_of_ne _ _ ha]

theorem count_splitSign (l : List Char) (a : Char)
    (h1 : a ≠ '-') (h2 : a ≠ '+') : (splitSign l).2.count a = l.count a := by
  unfold splitSign
  split
  · simp [List.count_cons_of_ne h1]
  · simp [List.count_cons_of_ne h2]
  · rfl

theorem takeDigits_append_eq (l : List Char) :
    (takeDigits l).1 ++ (takeDigits l).2 = l := by
  induction l with
  | nil => rfl
  | cons c cs ih =>
    by_cases h : c.isDigit
    · simp [takeDigits, h, ih]
    · simp [takeDigits, h]

theorem takeDigits_all_digits (l : List Char) :
    ∀ c ∈ (takeDigits l).1, c.isDigit = true := by
  induction l with
  | nil => intro c hc; simp [takeDigits] at hc
  | cons b bs ih =>
    intro c hc
    by_cases h : b.isDigit
    · simp only [takeDigits, h, if_true] at hc
      rcases List.mem_cons.mp hc with e | e
      · rw [e]; exact h
      · exact ih c e
    · simp [takeDigits, h] at hc

theorem count_dot_takeDigits (l : List Char) :
    (takeDigits l).2.count '.' = l.count '.' := by
  conv_rhs => rw [← takeDigits_append_eq l]
  rw [List.count_append]
  have h0 : (takeDigits l).1.count '.' = 0 := by
    rw [List.count_eq_zero]
    intro hm
    have := takeDigits_all_digits l '.' hm
    simp [Char.isDigit] at this
  omega

theorem parseMantissa_count (l : List Char) (v : ℚ) (rest : List Char)
    (h : parseMantissa l = some (v, rest)) :
    l.count '.' ≤ rest.count '.' + 1 := by
  simp only [parseMantissa] at h
  split at h
  · next r2 heq =>
    split at h
    · exact absurd h (by simp)
    · rw [Option.some.injEq, Prod.mk.injEq] at h
      obtain ⟨hv, hrest⟩ := h
      subst hrest
      have e1 := count_dot_takeDigits l
      have e2 := count_dot_takeDigits r2
      rw [heq, List.count_cons_self] at e1
      omega
  · next x heq =>
    split at h
    · exact absurd h (by simp)
    · rw [Option.some.injEq, Prod.mk.injEq] at h
      obtain ⟨hv, hrest⟩ := h
      subst hrest
      have e1 := count_dot_takeDigits l
      omega

theorem expTail_count (r : List Char)
    (h2 : (takeDigits (splitSign r).2).2 = []) : r.count '.' = 0 := by
  have e := takeDigits_append_eq (splitSign r).2
  rw [h2, List.append_nil] at e
  have h0 : (takeDigits (splitSign r).2).1.count '.' = 0 := by
    rw [List.count_eq_zero]
    intro hm
    have := takeDigits_all_digits (splitSign r).2 '.' hm
    simp [Char.isDigit] at this
  calc r.count '.' = (splitSign r).2.count '.' :=
        (count_splitSign r '.' (by decide) (by decide)).symm
    _ = (takeDigits (splitSign r).2).1.count '.' := by rw [e]
    _ = 0 := h0

theorem parseExpPart_count (rest : List Char) (m : ℚ)
    (h : parseExpPart rest = some m) : rest.count '.' = 0 := by
  simp only [parseExpPart] at h
  split at h
  · rfl
  · next r =>
    split at h
    · exact absurd h (by simp)
    · next hcond =>
      cases hd : (takeDigits (splitSign r).2).2 with
      | nil =>
        rw [List.count_cons_of_ne (by decide : '.' ≠ 'e')]
        exact expTail_count r hd
      | cons c cs =>
        rw [hd] at hcond
        simp at hcond
  · next r =>
    split at h
    · exact absurd h (by simp)
    · next hcond =>
      cases hd : (takeDigits (splitSign r).2).2 with
      | nil =>
        rw [List.count_cons_of_ne (by decide : '.' ≠ 'E')]
        exact expTail_count r hd
      | cons c cs =>
        rw [hd] at hcond
        simp at hcond
  · exact absurd h (by simp)

theorem python_float_two_dots (l : List Char) (h2 : 2 ≤ l.count '.') :
    python_float l = none := by
  unfold python_float
  cases hm : parseMantissa (splitSign (trimWS l)).2 with
  | none => rfl
  | some p =>
    obtain ⟨v, rest⟩ := p
    cases he : parseExpPart rest with
    | none => simp [he]
    | some m =>
      exfalso
      have c1 := parseMantissa_count _ v rest hm
      have c2 := parseExpPart_count rest m he
      have c3 : (splitSign (trimWS l)).2.count '.' = (trimWS l).count '.' :=
        count_splitSign _ '.' (by decide) (by decide)
      have c4 : (trimWS l).count '.' = l.count '.' :=
        count_trimWS '.' (by decide) l
      omega

theorem count_dot_replaceCommaWithDot (l : List Char) :
    (replaceCommaWithDot l).count '.' = l.count ',' + l.count '.' := by
  induction l with
  | nil => rfl
  | cons c cs ih =>
    have hmap : replaceCommaWithDot (c :: cs)
        = (if c = ',' then '.' else c) :: replaceCommaWithDot cs := rfl
    rw [hmap]
    by_cases hc : c = ','
    · subst hc
      rw [if_pos rfl, List.count_cons_self, List.count_cons_self,
        List.count_cons_of_ne (by decide : ('.' : Char) ≠ ',')]
      omega
    · rw [if_neg hc]
      by_cases hd : c = '.'
      · subst hd
        rw [List.count_cons_self, List.count_cons_self,
          List.count_cons_of_ne (by decide : (',' : Char) ≠ '.')]
        omega
      · rw [List.count_cons_of_ne (fun e => hd e.symm),
          List.count_cons_of_ne (fun e => hc e.symm),
          List.count_cons_of_ne (fun e => hd e.symm)]
        omega

/- ===== helper lemmas: narrative rendering ===== -/

theorem int_trunc_intCast (n : ℤ) : int_trunc ((n : ℚ)) = n := by
  unfold int_trunc
  split_ifs <;> simp

theorem fmt1_dec1 (q : ℚ) : fmt1 (dec1 q) = fmt1 q := by
  have key : round (dec1 q * (10 : ℚ) ^ 1) = round (q * (10 : ℚ) ^ 1) := by
    unfold dec1
    rw [pow_one, div_mul_cancel₀ _ (by norm_num : (10 : ℚ) ≠ 0), round_intCast]
  unfold fmt1 formatFixed
  rw [key]

theorem int_trunc_gv_norm (u : UserData) (f : FieldName)
    (hf : isCountField f = true) :
    int_trunc (gv (normalizeUserData u) f) = int_trunc (gv u f) := by
  unfold gv normalizeUserData
  cases u f with
  | none => rfl
  | some q => simp [hf, int_trunc_intCast]

theorem fmt1_gv_norm (u : UserData) (f : FieldName)
    (hf : isCountField f = false) :
    fmt1 (gv (normalizeUserData u) f) = fmt1 (gv u f) := by
  unfold gv normalizeUserData
  cases u f with
  | none => rfl
  | some q => simp [hf, fmt1_dec1]

theorem gv_updateField_ne (u : UserData) (f g : FieldName) (q : ℚ)
    (h : g ≠ f) : gv (updateField u f q) g = gv u g := by
  simp [gv, updateField, h]

theorem brs_fast (u : UserData) :
    build_reason_sentence "Fast Learner" u = fastText u := rfl

theorem brs_consistent (u : UserData) :
    build_reason_sentence "Consistent Learner" u = consistentText u := rfl

theorem brs_reflective (u : UserData) :
    build_reason_sentence "Reflective Learner" u = reflectiveText u := rfl

theorem int_trunc_eval (q : ℚ) (n : ℤ) (h0 : 0 ≤ q) (hf : ⌊q⌋ = n) :
    int_trunc q = n := by
  unfold int_trunc
  rw [if_pos h0, hf]

theorem fmt1_eval (q : ℚ) (n : ℤ) (h : round (q * (10 : ℚ) ^ 1) = n) :
    fmt1 q = (if n < 0 then "-" else "") ++ toString (n.natAbs / 10 ^ 1)
      ++ "." ++ padZeros 1 (toString (n.natAbs % 10 ^ 1)) := by
  simp only [fmt1, formatFixed]
  rw [h, if_neg (by norm_num : ¬ (1 : ℕ) = 0)]

/- ===== claims ===== -/

/-- C1 (counterexample): at the spec's cautionary-branch input
(rating 1.5, score 60.0) the Fast Learner narrative does NOT contain the
cautionary wording (the source's "mengorbankan pemahaman mendalam" text
lives only after the function's unconditional return); instead it still
asserts that speed does not reduce comprehension, and both the
cautionary-branch input and the affirming-branch input (rating 4.5,
score 90.0) receive the very same suggestion, so no branch with distinct
suggestions exists. -/
theorem c1_counterexample :
    strContains (build_reason_sentence "Fast Learner" u_c1_caution)
      "mengorbankan" = false
    ∧ strContains (build_reason_sentence "Fast Learner" u_c1_caution)
      "kecepatan belajar tidak mengurangi pemahaman materi" = true
    ∧ strContains (build_reason_sentence "Fast Learner" u_c1_affirm)
      "Kecepatan belajarmu diimbangi" = false
    ∧ strContains (build_reason_sentence "Fast Learner" u_c1_caution)
      "**Saran:** Pertahankan efisiensi belajarmu" = true
    ∧ strContains (build_reason_sentence "Fast Learner" u_c1_affirm)
      "**Saran:** Pertahankan efisiensi belajarmu" = true := by
  rw [brs_fast, brs_fast]
  unfold fastText
  rw [show gv u_c1_caution .total_completed_modules = 0 from rfl,
    show gv u_c1_caution .avg_study_duration = 0 from rfl,
    show gv u_c1_caution .total_tracking_events = 0 from rfl,
    show gv u_c1_caution .avg_exam_score = 60 from rfl,
    show gv u_c1_affirm .total_completed_modules = 0 from rfl,
    show gv u_c1_affirm .avg_study_duration = 0 from rfl,
    show gv u_c1_affirm .total_tracking_events = 0 from rfl,
    show gv u_c1_affirm .avg_exam_score = 90 from rfl,
    int_trunc_eval 0 0 le_rfl (by norm_num),
    fmt1_eval 0 0 (by norm_num [round_eq]),
    fmt1_eval 60 600 (by norm_num [round_eq]),
    fmt1_eval 90 900 (by norm_num [round_eq])]
  refine ⟨?_, ?_, ?_, ?_, ?_⟩ <;> decide

/-- C1 (amended): for every feature map, explain with label
"Fast Learner" returns one fixed template: the output is independent of
avg_submission_rating, always contains the affirming statement that
learning speed does not reduce comprehension, and always carries the
single review suggestion.  The compound condition
`avg_submission_rating < 2.0 OR avg_exam_score < 70.0` is tested only in
unreachable code after the function's first return. -/
theorem c1_fast_fixed_template (u : UserData) (q : ℚ) :
    build_reason_sentence "Fast Learner" (updateField u .avg_submission_rating q)
      = build_reason_sentence "Fast Learner" u
    ∧ strContains (build_reason_sentence "Fast Learner" u)
        "kecepatan belajar tidak mengurangi pemahaman materi" = true
    ∧ strContains (build_reason_sentence "Fast Learner" u)
        "**Saran:** Pertahankan efisiensi belajarmu" = true := by
  refine ⟨?_, ?_, ?_⟩
  · rw [brs_fast, brs_fast]
    unfold fastText
    rw [gv_updateField_ne u .avg_submission_rating .total_completed_modules q
        (by decide),
      gv_updateField_ne u .avg_submission_rating .avg_study_duration q
        (by decide),
      gv_updateField_ne u .avg_submission_rating .total_tracking_events q
        (by decide),
      gv_updateField_ne u .avg_submission_rating .avg_exam_score q
        (by decide)]
  · rw [brs_fast]
    unfold fastText
    exact strContains_append_right _ _ _ (by decide)
  · rw [brs_fast]
    unfold fastText
    exact strContains_append_right _ _ _ (by decide)

/-- C2 (counterexample): at the spec's mentor-branch input (score 90.0,
rating 4.5) the Consistent Learner narrative does not contain any
mentor-track wording (that text lives only after the unconditional
return), and both that input and the maintain-pace input (score 80.0)
receive the same "Pertahankan konsistensi ini" suggestion — there is no
branch. -/
theorem c2_counterexample :
    strContains (build_reason_sentence "Consistent Learner" u_c2_mentor)
      "mentor" = false
    ∧ strContains (build_reason_sentence "Consistent Learner" u_c2_mentor)
      "**Saran:** Pertahankan konsistensi ini" = true
    ∧ strContains (build_reason_sentence "Consistent Learner" u_c2_maintain)
      "**Saran:** Pertahankan konsistensi ini" = true := by
  rw [brs_consistent, brs_consistent]
  unfold consistentText
  rw [show gv u_c2_mentor .total_tracking_events = 0 from rfl,
    show gv u_c2_mentor .total_completed_modules = 0 from rfl,
    show gv u_c2_mentor .avg_submission_rating = 4.5 from rfl,
    show gv u_c2_mentor .avg_exam_score = 90 from rfl,
    show gv u_c2_mentor .days_since_last_active = 0 from rfl,
    show gv u_c2_maintain .total_tracking_events = 0 from rfl,
    show gv u_c2_maintain .total_completed_modules = 0 from rfl,
    show gv u_c2_maintain .avg_submission_rating = 4.5 from rfl,
    show gv u_c2_maintain .avg_exam_score = 80 from rfl,
    show gv u_c2_maintain .days_since_last_active = 0 from rfl,
    int_trunc_eval 0 0 le_rfl (by norm_num),
    fmt1_eval 4.5 45 (by norm_num [round_eq]),
    fmt1_eval 90 900 (by norm_num [round_eq]),
    fmt1_eval 80 800 (by norm_num [round_eq])]
  refine ⟨?_, ?_, ?_⟩ <;> decide

/-- C2 (amended): for every feature map, explain with label
"Consistent Learner" emits a single template whose suggestion is always
the maintain-pace "Pertahankan konsistensi ini" line; the condition
`avg_exam_score >= 85.0 AND avg_submission_rating >= 4.0` and the
mentor-track suggestion occur only in unreachable code after the
function's first return. -/
theorem c2_consistent_fixed_template (u : UserData) :
    strContains (build_reason_sentence "Consistent Learner" u)
      "**Saran:** Pertahankan konsistensi ini" = true := by
  rw [brs_consistent]
  unfold consistentText
  exact strContains_append_right _ _ _ (by decide)

theorem c3_narrative_facts :
    strContains (build_reason_sentence "Consistent Learner" u_c3) "15" = true
    ∧ strContains (build_reason_sentence "Consistent Learner" u_c3)
      "88.0" = true
    ∧ strContains (build_reason_sentence "Consistent Learner" u_c3)
      "88.00" = false := by
  rw [brs_consistent]
  unfold consistentText
  rw [show gv u_c3 .total_tracking_events = 120 from rfl,
    show gv u_c3 .total_completed_modules = 15 from rfl,
    show gv u_c3 .avg_submission_rating = 4.2 from rfl,
    show gv u_c3 .avg_exam_score = 88 from rfl,
    show gv u_c3 .days_since_last_active = 2 from rfl,
    int_trunc_eval 120 120 (by norm_num) (by norm_num),
    int_trunc_eval 15 15 (by norm_num) (by norm_num),
    int_trunc_eval 2 2 (by norm_num) (by norm_num),
    fmt1_eval 4.2 42 (by norm_num [round_eq]),
    fmt1_eval 88 880 (by norm_num [round_eq])]
  refine ⟨?_, ?_, ?_⟩ <;> decide

/-- C3 (counterexample): with a classifier returning code 0, predict on
the scenario vector does return "Consistent Learner", but the explain
output does not contain "88.00": the narrative renders the exam score
with one decimal place ("88.0"). -/
theorem c3_counterexample :
    predict_learner_type ⟨fun _ => 0⟩ none fv_c3 = "Consistent Learner"
    ∧ strContains (build_reason_sentence "Consistent Learner" u_c3)
      "88.00" = false :=
  ⟨rfl, c3_narrative_facts.2.2⟩

/-- C3 (amended): for the scenario feature map and any classifier whose
predict returns code 0 on it, predict returns "Consistent Learner" and
the explain output contains the literal substrings "15" and "88.0" (one
decimal place, not "88.00"). -/
theorem c3_end_to_end (model : ClassifierArtifact)
    (h : model.predict [(45 : ℚ), 4.2, 88, 10, 120, 15, 2] = 0) :
    predict_learner_type model none fv_c3 = "Consistent Learner"
    ∧ strContains (build_reason_sentence "Consistent Learner" u_c3)
      "15" = true
    ∧ strContains (build_reason_sentence "Consistent Learner" u_c3)
      "88.0" = true := by
  refine ⟨?_, c3_narrative_facts.1, c3_narrative_facts.2.1⟩
  have hs : model.predict (scaledInput none (FEATURE_COLS.map fv_c3)) = 0 := h
  unfold predict_learner_type
  rw [hs]
  rfl

/-- Witness for C3: the hypothesis holds for the constant-0 classifier,
and the conclusion follows by applying the theorem there. -/
theorem c3_witness :
    (ClassifierArtifact.mk (fun _ => 0)).predict
      [(45 : ℚ), 4.2, 88, 10, 120, 15, 2] = 0
    ∧ (predict_learner_type ⟨fun _ => 0⟩ none fv_c3 = "Consistent Learner"
      ∧ strContains (build_reason_sentence "Consistent Learner" u_c3)
        "15" = true
      ∧ strContains (build_reason_sentence "Consistent Learner" u_c3)
        "88.0" = true) :=
  ⟨rfl, c3_end_to_end ⟨fun _ => 0⟩ rfl⟩

/-- C4: for every raw field map in which some field is missing, empty,
non-numeric (or NA), the feature-vector builder substitutes the default
0.0 for that field; prediction and explanation on the built dictionary
are total — predict always produces a label (the classifier code mapped
through the display table) and explain always produces a text. -/
theorem c4_defaults (raw : RawMap) (f : FieldName) (h : invalidRaw (raw f)) :
    build_feature_vector raw f = 0
    ∧ (∀ (model : ClassifierArtifact) (scaler : Option ScalerArtifact),
        ∃ c : ℤ, predict_pipeline model scaler raw = labelFor c)
    ∧ (∀ lbl : String, ∃ t : String,
        build_reason_sentence lbl (fun g => some (build_feature_vector raw g)) = t) := by
  refine ⟨?_,
    fun model scaler =>
      ⟨model.predict (scaledInput scaler (FEATURE_COLS.map (build_feature_vector raw))),
        rfl⟩,
    fun lbl => ⟨_, rfl⟩⟩
  cases hv : raw f with
  | none => simp [build_feature_vector, hv]
  | some v =>
    cases v with
    | num q =>
      rw [hv] at h
      exact h.elim
    | nan => simp [build_feature_vector, hv, to_float_safe]
    | str s =>
      rw [hv] at h
      simp only [invalidRaw] at h
      simp [build_feature_vector, hv, to_float_safe, h]

/-- Witness for C4: a non-numeric string field and a missing field both
default to 0. -/
theorem c4_witness :
    invalidRaw (raw_c4 .avg_exam_score)
    ∧ build_feature_vector raw_c4 .avg_exam_score = 0
    ∧ build_feature_vector raw_c4 .avg_study_duration = 0 := by
  have hinv : invalidRaw (raw_c4 .avg_exam_score) := by
    show python_float (replaceCommaWithDot ("abc" : String).data) = none
    rfl
  exact ⟨hinv, (c4_defaults raw_c4 .avg_exam_score hinv).1,
    (c4_defaults raw_c4 .avg_study_duration True.intro).1⟩

/-- C5: the label returned by predict is the classifier code mapped
through the static table — 0, 1, 2 give the three learner names, and any
other code is returned in its decimal string form rather than raising. -/
theorem c5_label_mapping (model : ClassifierArtifact)
    (scaler : Option ScalerArtifact) (fv : FeatureMap) (c : ℤ)
    (h : model.predict (scaledInput scaler (FEATURE_COLS.map fv)) = c) :
    predict_learner_type model scaler fv =
      if c = 0 then "Consistent Learner"
      else if c = 1 then "Fast Learner"
      else if c = 2 then "Reflective Learner"
      else toString c := by
  unfold predict_learner_type labelFor LABEL_DISPLAY
  rw [h]
  split_ifs <;> rfl

/-- Witness for C5: a classifier that outputs the unmapped code 99 yields
the label "99". -/
theorem c5_witness :
    (ClassifierArtifact.mk (fun _ => 99)).predict
      (scaledInput none (FEATURE_COLS.map (fun _ => 0))) = 99
    ∧ predict_learner_type ⟨fun _ => 99⟩ none (fun _ => 0) = "99" := by
  refine ⟨rfl, ?_⟩
  have h := c5_label_mapping ⟨fun _ => 99⟩ none (fun _ => 0) 99 rfl
  exact h.trans (by decide)

/-- C6: for every field and every defaults, the string "12,5" parses to
exactly the same value as "12.5" (the comma is normalized to a dot
before float conversion), and that common value is 12.5 = 25/2. -/
theorem c6_comma_decimal :
    (∀ f : FieldName,
      build_feature_vector (fun _ => some (.str "12,5")) f
        = build_feature_vector (fun _ => some (.str "12.5")) f)
    ∧ (∀ d1 d2 : ℚ, to_float_safe (.str "12,5") d1 = to_float_safe (.str "12.5") d2)
    ∧ to_float_safe (.str "12.5") 0 = 25 / 2 := by
  refine ⟨fun f => rfl, fun d1 d2 => rfl, ?_⟩
  have hp : python_float (replaceCommaWithDot ("12.5" : String).data)
      = some ((((12 : ℕ) : ℚ) + ((5 : ℕ) : ℚ) / 10 ^ (1 : ℕ)) * 1) := rfl
  simp only [to_float_safe, hp]
  norm_num

/-- C7: with the scaler absent, predict hands the classifier the raw
7-entry vector in the fixed canonical order; with a scaler present, its
transform is applied to that vector first. -/
theorem c7_scaler_optional (model : ClassifierArtifact) (fv : FeatureMap) :
    predict_learner_type model none fv
      = labelFor (model.predict
          [fv .avg_study_duration, fv .avg_submission_rating, fv .avg_exam_score,
           fv .total_submissions, fv .total_tracking_events,
           fv .total_completed_modules, fv .days_since_last_active])
    ∧ ∀ sc : ScalerArtifact,
        predict_learner_type model (some sc) fv
          = labelFor (model.predict (sc.transform
              [fv .avg_study_duration, fv .avg_submission_rating, fv .avg_exam_score,
               fv .total_submissions, fv .total_tracking_events,
               fv .total_completed_modules, fv .days_since_last_active])) :=
  ⟨rfl, fun _ => rfl⟩

/-- C8: predict is a deterministic function of the raw field map and the
artifacts — two runs on equal maps with the same classifier and scaler
give the identical label. -/
theorem c8_deterministic (model : ClassifierArtifact)
    (scaler : Option ScalerArtifact) (raw1 raw2 : RawMap)
    (h : ∀ f, raw1 f = raw2 f) :
    predict_pipeline model scaler raw1 = predict_pipeline model scaler raw2 := by
  have hb : build_feature_vector raw1 = build_feature_vector raw2 := by
    funext f
    unfold build_feature_vector
    rw [h f]
  unfold predict_pipeline
  rw [hb]

/-- Witness for C8: two runs on one concrete raw map agree. -/
theorem c8_witness :
    predict_pipeline ⟨fun _ => 0⟩ none (fun _ => some (.num 1))
      = predict_pipeline ⟨fun _ => 0⟩ none (fun _ => some (.num 1)) :=
  c8_deterministic ⟨fun _ => 0⟩ none _ _ (fun _ => rfl)

/-- C9: the narrative depends on the count fields only through `int()`
truncation toward zero and on the average fields only through their
one-decimal rendering: normalizing a dictionary that way never changes
any narrative, and a fractional module count 15.9 is rendered as the
truncated "15". -/
theorem c9_rendering :
    (∀ (lbl : String) (u : UserData),
      build_reason_sentence lbl (normalizeUserData u)
        = build_reason_sentence lbl u)
    ∧ strContains (build_reason_sentence "Fast Learner" u_c9)
      "(**15** sub-modul selesai)" = true := by
  constructor
  · intro lbl u
    unfold build_reason_sentence
    split_ifs with h1 h2 h3
    · unfold fastText
      rw [int_trunc_gv_norm u .total_completed_modules rfl,
        int_trunc_gv_norm u .total_tracking_events rfl,
        fmt1_gv_norm u .avg_study_duration rfl,
        fmt1_gv_norm u .avg_exam_score rfl]
    · unfold consistentText
      rw [int_trunc_gv_norm u .total_tracking_events rfl,
        int_trunc_gv_norm u .total_completed_modules rfl,
        int_trunc_gv_norm u .days_since_last_active rfl,
        fmt1_gv_norm u .avg_submission_rating rfl,
        fmt1_gv_norm u .avg_exam_score rfl]
    · unfold reflectiveText
      rw [int_trunc_gv_norm u .total_completed_modules rfl,
        int_trunc_gv_norm u .total_tracking_events rfl,
        fmt1_gv_norm u .avg_study_duration rfl,
        fmt1_gv_norm u .avg_exam_score rfl]
    · rfl
  · rw [brs_fast]
    unfold fastText
    rw [show gv u_c9 .total_completed_modules = 15.9 from rfl,
      show gv u_c9 .avg_study_duration = 0 from rfl,
      show gv u_c9 .total_tracking_events = 0 from rfl,
      show gv u_c9 .avg_exam_score = 0 from rfl,
      int_trunc_eval (15.9 : ℚ) 15 (by norm_num) (by norm_num),
      int_trunc_eval 0 0 le_rfl (by norm_num),
      fmt1_eval 0 0 (by norm_num [round_eq])]
    decide

/-- C10: the comma replacement hits every comma, not only one decimal
comma — a single-comma thousands-style string "1,234" parses to 1.234
(namely 617/500), and any string with two or more commas fails to parse
and falls back to the default. -/
theorem c10_comma_replace_all :
    to_float_safe (.str "1,234") 0 = 617 / 500
    ∧ (∀ (s : String) (d : ℚ),
        2 ≤ s.data.count ',' → to_float_safe (.str s) d = d) := by
  constructor
  · have hp : python_float (replaceCommaWithDot ("1,234" : String).data)
        = some ((((1 : ℕ) : ℚ) + ((234 : ℕ) : ℚ) / 10 ^ (3 : ℕ)) * 1) := rfl
    simp only [to_float_safe, hp]
    norm_num
  · intro s d hc
    have h2 : 2 ≤ (replaceCommaWithDot s.data).count '.' := by
      rw [count_dot_replaceCommaWithDot]
      omega
    have hn := python_float_two_dots _ h2
    simp [to_float_safe, hn]

/-- Witness for C10: "1,2,3" has two commas and parses to the default. -/
theorem c10_witness :
    2 ≤ ("1,2,3" : String).data.count ','
    ∧ to_float_safe (.str "1,2,3") 7 = 7 :=
  ⟨by decide, c10_comma_replace_all.2 "1,2,3" 7 (by decide)⟩
